import Mathlib

/-!
Shallow embedding of the test-crm-backend NestJS application, translated from
the TypeScript sources, together with theorems settling the specification
claims about it.

Conventions of the embedding:
* database tables are Lean lists of row structures; a SQL `WHERE` clause is a
  `List.filter` over the rows, `SELECT ... LIMIT 1` is `List.take 1`;
* JavaScript numbers holding row counts, ids and timestamps are `Nat`;
* external collaborators are parameters: `bcrypt.compare` is an opaque
  function `String → String → Bool`, `bcrypt.hash` an opaque
  `String → String`, `jwtService.sign` wraps the payload into a
  `SignedToken` structure (the payload is recoverable, which models a signed
  but unencrypted token), the config map is `String → Option String`, and the
  current timestamp (SQL `NOW()`) is an explicit `Nat` argument;
* a database call that may fail at the infrastructure level takes or returns
  an `Except String` value whose `error` case carries the error message;
* thrown Nest HTTP exceptions (`UnauthorizedException`,
  `NotFoundException`, `ConflictException`) become constructors of explicit
  result types.
-/

set_option autoImplicit false

deriving instance DecidableEq for Except

namespace Crm

/-- Role enumeration of the users table (`role ENUM('admin','viewer')`). -/
inductive Role where
  | admin
  | viewer
deriving DecidableEq, Repr

/-- A row of the `users` table: id, username, stored bcrypt hash (the
`password` column), role and the two server-assigned timestamps. -/
structure UserRow where
  id : Nat
  username : String
  password : String
  role : Role
  created_at : Nat
  updated_at : Nat
deriving DecidableEq, Repr

/-- The `User` interface of `user.interface.ts`: the public view
`(id, username, role)`.  It has no password field, so a value of this type
cannot carry the stored hash. -/
structure User where
  id : Nat
  username : String
  role : Role
deriving DecidableEq, Repr

/-- The `JwtPayload` interface: `(sub, username, role)` as passed to
`jwtService.sign` by `AuthService.login`. -/
structure JwtPayload where
  sub : Nat
  username : String
  role : Role
deriving DecidableEq, Repr

/-- Model of `jwtService.sign(payload)`: a signed token determined exactly by
its payload (integrity-protected, not encrypted). -/
structure SignedToken where
  payload : JwtPayload
deriving DecidableEq, Repr

/-- The SQL query of `AuthService.validateUser`:
`SELECT id, username, password, role FROM users WHERE username = ?`. -/
def selectUserByUsername (db : List UserRow) (username : String) : List UserRow :=
  db.filter (fun u => u.username == username)

/-- `AuthService.validateUser(username, password)` given the outcome of the
database query (`Except.error` models a rejected `executeQuery` promise).
The surrounding `try/catch` of the source catches any database error, logs
it, and returns `null`; a found row has its hash compared with
`bcrypt.compare`, and on a mismatch `null` is returned as well. -/
def validateUser (bcmp : String → String → Bool)
    (queryResult : Except String (List UserRow)) (password : String) : Option User :=
  match queryResult with
  | .error _ => none
  | .ok users =>
    match users with
    | [] => none
    | u :: _ =>
      if bcmp password u.password then
        some { id := u.id, username := u.username, role := u.role }
      else
        none

/-- Result of `AuthService.login`: either the thrown
`UnauthorizedException` with its message, or the returned
`(access_token, user)` object. -/
inductive LoginResult where
  | unauthorized (message : String)
  | ok (access_token : SignedToken) (user : User)
deriving DecidableEq, Repr

/-- `AuthService.login(loginDto)` given the outcome of the user query:
a `null` from `validateUser` throws `UnauthorizedException('Invalid
credentials')`; otherwise the token is signed over
`(sub := user.id, username, role)` and returned with the public user view. -/
def login (bcmp : String → String → Bool)
    (queryResult : Except String (List UserRow)) (password : String) : LoginResult :=
  match validateUser bcmp queryResult password with
  | none => .unauthorized "Invalid credentials"
  | some user =>
      .ok { payload := { sub := user.id, username := user.username, role := user.role } }
        { id := user.id, username := user.username, role := user.role }

/-- `AuthService.login` composed with a successful database query over the
table `db` (the non-failing request path). -/
def loginDb (bcmp : String → String → Bool) (db : List UserRow)
    (username password : String) : LoginResult :=
  login bcmp (.ok (selectUserByUsername db username)) password

/-! ## Migration Runner (`migration.service.ts`) -/

/-- Persistent state touched by the Migration Runner: the `migrations` ledger
table (list of recorded filenames, in insertion order) and the log of
migration-script statements executed against the database so far. -/
structure MigState where
  ledger : List String
  executed : List String
deriving DecidableEq, Repr

/-- Split a character list at every occurrence of the separator (executable
model of `String.split` on a character predicate); `acc` holds the current
piece reversed. -/
def splitOnChar (sep : Char) : List Char → List Char → List (List Char)
  | [], acc => [acc.reverse]
  | c :: rest, acc =>
    if c = sep then acc.reverse :: splitOnChar sep rest []
    else splitOnChar sep rest (c :: acc)

/-- Strip leading and trailing whitespace (executable model of
`String.trim`). -/
def trimChars (cs : List Char) : List Char :=
  ((cs.dropWhile (fun c => c.isWhitespace)).reverse.dropWhile
    (fun c => c.isWhitespace)).reverse

/-- Lexicographic comparison of character lists by code point (executable
model of the string order used by `Array.prototype.sort()`). -/
def charListLe : List Char → List Char → Bool
  | [], _ => true
  | _ :: _, [] => false
  | a :: as, b :: bs => if a = b then charListLe as bs else decide (a < b)

/-- The statement splitter of `runMigration`: split the script on `;`, trim
each piece, and drop empty pieces. -/
def splitStatements (sql : String) : List String :=
  ((splitOnChar ';' sql.data []).map (fun cs => String.mk (trimChars cs))).filter
    (fun stmt => !stmt.data.isEmpty)

/-- Execute a list of statements in sequence; `fails` tells which statements
the database rejects.  A rejected statement aborts the remaining ones and
propagates an error, mirroring the `for` loop over `executeQuery` calls. -/
def execStatements (fails : String → Bool) :
    List String → List String → Except String (List String)
  | [], log => .ok log
  | stmt :: rest, log =>
    if fails stmt then
      .error ("Migration statement failed: " ++ stmt)
    else
      execStatements fails rest (log ++ [stmt])

/-- The ledger lookup of `runMigration`:
`SELECT id FROM migrations WHERE filename = ?` followed by the
`existing.length > 0` test. -/
def ledgerHas (ledger : List String) (filename : String) : Bool :=
  decide (0 < (ledger.filter (fun f => f == filename)).length)

/-- `MigrationService.runMigration(filename)` on one script
`(filename, contents)`: skip when the ledger already records the filename;
otherwise execute the split statements and then insert the ledger row. -/
def runMigration (fails : String → Bool) (script : String × String) (s : MigState) :
    Except String MigState :=
  if ledgerHas s.ledger script.1 then
    .ok s
  else
    match execStatements fails (splitStatements script.2) s.executed with
    | .error e => .error e
    | .ok log2 => .ok { ledger := s.ledger ++ [script.1], executed := log2 }

/-- The `for (const file of migrationFiles)` loop of `runMigrations`:
process the scripts in order, stopping at the first error (which the
surrounding `try/catch` logs and rethrows). -/
def runMigrationsList (fails : String → Bool) :
    List (String × String) → MigState → Except String MigState
  | [], s => .ok s
  | sc :: rest, s =>
    match runMigration fails sc s with
    | .error e => .error e
    | .ok s2 => runMigrationsList fails rest s2

/-- Insertion step of the deterministic ordering applied to filenames. -/
def insertLe {α : Type} (le : α → α → Bool) (a : α) : List α → List α
  | [] => [a]
  | b :: rest => if le a b then a :: b :: rest else b :: insertLe le a rest

/-- Insertion sort, modelling JavaScript `Array.prototype.sort()` on
filenames (lexicographic string order). -/
def sortByLe {α : Type} (le : α → α → Bool) : List α → List α
  | [] => []
  | a :: rest => insertLe le a (sortByLe le rest)

/-- The directory listing step of `runMigrations`:
`readdirSync(...).filter((file) => file.endsWith('.sql')).sort()`. -/
def sortScripts (scripts : List (String × String)) : List (String × String) :=
  sortByLe (fun a b => charListLe a.1.data b.1.data)
    (scripts.filter (fun sc => ".sql".data.isSuffixOf sc.1.data))

/-- `MigrationService.runMigrations()` given the directory contents
`scripts` (pairs of filename and file contents).  The bootstrap
`CREATE TABLE IF NOT EXISTS migrations` statement is idempotent and exempt
from ledger tracking, so it leaves the modelled state unchanged; an absent
migrations directory corresponds to `scripts = []` (log and continue). -/
def runMigrations (fails : String → Bool) (scripts : List (String × String))
    (s : MigState) : Except String MigState :=
  runMigrationsList fails (sortScripts scripts) s

/-! ## Admin Seeder (`MigrationService.seedDefaultAdmin`) -/

/-- The admin existence check of `seedDefaultAdmin`:
`SELECT id FROM users WHERE role = ? LIMIT 1` with parameter `'admin'`,
followed by the `adminCheck.length > 0` test. -/
def adminExists (db : List UserRow) : Bool :=
  decide (0 < ((db.filter (fun u => u.role == Role.admin)).take 1).length)

/-- The row inserted by `seedDefaultAdmin` on an admin-free database:
`INSERT INTO users (username, password, role) VALUES ('admin',
bcrypt.hash('Admin@123', 10), 'admin')`, with server-assigned id and
timestamps. -/
def defaultAdminRow (hashFn : String → String) (nextId now : Nat) : UserRow :=
  { id := nextId, username := "admin", password := hashFn "Admin@123",
    role := Role.admin, created_at := now, updated_at := now }

/-- `MigrationService.seedDefaultAdmin()`: no-op when an admin row exists,
otherwise insert the default admin.  Returns the new table contents and the
next generated id. -/
def seedDefaultAdmin (hashFn : String → String) (db : List UserRow)
    (nextId now : Nat) : List UserRow × Nat :=
  if adminExists db then
    (db, nextId)
  else
    (db ++ [defaultAdminRow hashFn nextId now], nextId + 1)

/-! ## Bootstrap (`main.ts`) -/

/-- Outcome of the `bootstrap` function of `main.ts`: either the process
exits through the final `.catch`, or `app.listen` is reached and the server
accepts requests; `dbInitialized` records whether the migration/seed block
completed without error. -/
inductive BootstrapOutcome where
  | exitedWithError (message : String)
  | listening (dbInitialized : Bool)
deriving DecidableEq, Repr

/-- `bootstrap()` of `main.ts`.  `initResult` is the outcome of
`NestFactory.create` / `app.init()` (where the connection pool is created);
an error there escapes `bootstrap` and reaches `bootstrap().catch(...)`,
which calls `process.exit(1)`.  The migration/seed block, in contrast, sits
inside a `try/catch` whose handler only logs and continues, after which
`app.listen` is always reached. -/
def bootstrap (initResult : Except String Unit) (fails : String → Bool)
    (scripts : List (String × String)) (s : MigState) : BootstrapOutcome :=
  match initResult with
  | .error e => .exitedWithError ("Error starting application: " ++ e)
  | .ok _ =>
    match runMigrations fails scripts s with
    | .error _ => .listening false
    | .ok _ => .listening true

/-! ## Health Reporter (`health.service.ts`) -/

/-- JavaScript truthiness test on the result of `configService.get`:
`undefined` (absent key) and the empty string are falsy. -/
def jsFalsy : Option String → Bool
  | none => true
  | some s => s.data.isEmpty

/-- The `requiredConfig` array of `HealthService.checkConfiguration`. -/
def requiredConfig : List String := ["NODE_ENV", "JWT_SECRET"]

/-- The `for (const config of requiredConfig)` loop of
`checkConfiguration`: return `'error'` at the first falsy value, `'ok'`
after the loop. -/
def checkConfigurationLoop (cfg : String → Option String) : List String → String
  | [] => "ok"
  | c :: rest => if jsFalsy (cfg c) then "error" else checkConfigurationLoop cfg rest

/-- `HealthService.checkConfiguration()`. -/
def checkConfiguration (cfg : String → Option String) : String :=
  checkConfigurationLoop cfg requiredConfig

/-- The `checks` object of the readiness response. -/
structure ReadinessChecks where
  database : String
  configuration : String
deriving DecidableEq, Repr

/-- The readiness response of `HealthService.getReadinessStatus` (timestamp
omitted). -/
structure ReadinessStatus where
  status : String
  checks : ReadinessChecks
deriving DecidableEq, Repr

set_option linter.unusedVariables false in
/-- `HealthService.getReadinessStatus()`.  `dbReachable` is the actual
reachability of the database; the source never consults it: the `database`
check is the literal `'ok'` (its comment reads
`Will be implemented with actual DB connection`). -/
def getReadinessStatus (cfg : String → Option String) (dbReachable : Bool) :
    ReadinessStatus :=
  { status := "ready"
    checks := { database := "ok", configuration := checkConfiguration cfg } }

/-! ## Pagination (`pagination.dto.ts`, `findAll` of both services) -/

/-- The `PaginationMetaDto` object. -/
structure PaginationMeta where
  total : Nat
  page : Nat
  limit : Nat
  totalPages : Nat
  hasNext : Bool
  hasPrev : Bool
deriving DecidableEq, Repr

/-- `Math.ceil(a / b)` on natural operands with positive `b`: ceiling
division, `(a + b - 1) / b` over `Nat`. -/
def jsCeilDiv (a b : Nat) : Nat :=
  (a + b - 1) / b

/-- The pagination metadata computed identically by
`CustomerService.findAll` and `UserService.findAll`:
`totalPages = Math.ceil(total / limit)`, `hasNext = page < totalPages`,
`hasPrev = page > 1`. -/
def computePagination (total page limit : Nat) : PaginationMeta :=
  { total := total, page := page, limit := limit,
    totalPages := jsCeilDiv total limit,
    hasNext := decide (page < jsCeilDiv total limit),
    hasPrev := decide (1 < page) }

/-! ## Customer Resource Service (`customer.service.ts`) -/

/-- A row of the `customers` table.  `company` and `address` are nullable
columns, stored as `none` when unset. -/
structure CustomerRow where
  id : Nat
  name : String
  email : String
  phone : String
  company : Option String
  address : Option String
  created_at : Nat
  updated_at : Nat
deriving DecidableEq, Repr

/-- `CustomerService.findById`: first row of
`SELECT ... FROM customers WHERE id = ?`, or `none` (which the source turns
into a thrown `NotFoundException`). -/
def customerFindById (db : List CustomerRow) (id : Nat) : Option CustomerRow :=
  db.find? (fun c => c.id == id)

/-- `CustomerService.findAll(paginationQuery)`: count query, then the
`ORDER BY created_at DESC LIMIT limit OFFSET (page-1)*limit` data query,
then the pagination metadata. -/
def customerFindAll (db : List CustomerRow) (page limit : Nat) :
    List CustomerRow × PaginationMeta :=
  let total := db.length
  let offset := (page - 1) * limit
  let sorted := sortByLe (fun a b => b.created_at ≤ a.created_at) db
  ((sorted.drop offset).take limit, computePagination total page limit)

/-- The `UpdateCustomerDto` patch: each field is `none` when the request
body leaves it undefined. -/
structure CustomerPatch where
  name : Option String
  email : Option String
  phone : Option String
  company : Option String
  address : Option String
deriving DecidableEq, Repr

/-- The `updateFields.length === 0` test of `CustomerService.update`:
no patch field is defined. -/
def CustomerPatch.isEmpty (p : CustomerPatch) : Bool :=
  p.name.isNone && p.email.isNone && p.phone.isNone &&
    p.company.isNone && p.address.isNone

/-- JavaScript `value || null` on a supplied string field: the empty string
is coerced to `null`. -/
def jsOrNull (s : String) : Option String :=
  if s.data.isEmpty then none else some s

/-- Effect of the parameterized `UPDATE customers SET ... WHERE id = ?`
statement assembled by `CustomerService.update` on one matching row. -/
def customerApplyPatch (p : CustomerPatch) (now : Nat) (c : CustomerRow) : CustomerRow :=
  { c with
    name := p.name.getD c.name
    email := p.email.getD c.email
    phone := p.phone.getD c.phone
    company := match p.company with | none => c.company | some s => jsOrNull s
    address := match p.address with | none => c.address | some s => jsOrNull s
    updated_at := now }

/-- Domain errors thrown by the resource services. -/
inductive ResourceError where
  | notFound (message : String)
  | conflict (message : String)
deriving DecidableEq, Repr

/-- Observable effect of `CustomerService.update`: the returned (or thrown)
result, the table contents afterwards, and whether an `UPDATE` statement was
issued to the pool. -/
structure CustomerUpdateEffect where
  result : Except ResourceError CustomerRow
  db : List CustomerRow
  updateIssued : Bool
deriving Repr

/-- `CustomerService.update(id, updateCustomerDto)`: existence check via
`findById`, assembly of `updateFields` from the defined patch fields, the
early `return this.findById(id)` when no field is defined, otherwise the
`UPDATE` statement (which also sets `updated_at = NOW()`) followed by a
re-fetch. -/
def customerUpdate (db : List CustomerRow) (id : Nat) (p : CustomerPatch)
    (now : Nat) : CustomerUpdateEffect :=
  match customerFindById db id with
  | none =>
    { result := .error (.notFound ("Customer with ID " ++ toString id ++ " not found")),
      db := db, updateIssued := false }
  | some _ =>
    if p.isEmpty then
      match customerFindById db id with
      | some c => { result := .ok c, db := db, updateIssued := false }
      | none =>
        { result := .error (.notFound ("Customer with ID " ++ toString id ++ " not found")),
          db := db, updateIssued := false }
    else
      let db2 := db.map (fun c => if c.id == id then customerApplyPatch p now c else c)
      match customerFindById db2 id with
      | some c => { result := .ok c, db := db2, updateIssued := true }
      | none =>
        { result := .error (.notFound ("Customer with ID " ++ toString id ++ " not found")),
          db := db2, updateIssued := true }

/-! ## User Resource Service (`user.service.ts`) -/

/-- The `UserWithoutPassword` view returned by the user service:
`SELECT id, username, role, created_at, updated_at FROM users`. -/
structure UserPublic where
  id : Nat
  username : String
  role : Role
  created_at : Nat
  updated_at : Nat
deriving DecidableEq, Repr

/-- Projection of a `users` row to the password-free view. -/
def userPublic (u : UserRow) : UserPublic :=
  { id := u.id, username := u.username, role := u.role,
    created_at := u.created_at, updated_at := u.updated_at }

/-- `UserService.findById`: first row of the password-free select by id, or
`none` (thrown `NotFoundException` in the source). -/
def userFindById (db : List UserRow) (id : Nat) : Option UserPublic :=
  (db.find? (fun u => u.id == id)).map userPublic

/-- `UserService.findAll(paginationQuery)`: count query, ordered and bounded
data query, pagination metadata. -/
def userFindAll (db : List UserRow) (page limit : Nat) :
    List UserPublic × PaginationMeta :=
  let total := db.length
  let offset := (page - 1) * limit
  let sorted := sortByLe (fun a b => b.created_at ≤ a.created_at) db
  (((sorted.drop offset).take limit).map userPublic, computePagination total page limit)

/-- The `UpdateUserDto` patch.  All three fields are optional; the source
tests them with JavaScript truthiness (`if (updateUserDto.username)`), so a
supplied empty string counts as absent. -/
structure UserPatch where
  username : Option String
  password : Option String
  role : Option Role
deriving DecidableEq, Repr

/-- JavaScript truthiness of an optional string field: defined and
non-empty. -/
def jsTruthy : Option String → Bool
  | none => false
  | some s => !s.data.isEmpty

/-- The `updateFields.length === 0` test of `UserService.update`: the
username and password fields are falsy and the role field is absent (the
role values `'admin'` and `'viewer'` are non-empty strings, hence truthy
whenever defined). -/
def UserPatch.isEmpty (p : UserPatch) : Bool :=
  !jsTruthy p.username && !jsTruthy p.password && p.role.isNone

/-- The uniqueness probe of `UserService.update`:
`SELECT id FROM users WHERE username = ? AND id != ?`. -/
def usernameTakenByOther (db : List UserRow) (username : String) (id : Nat) : Bool :=
  decide (0 < (db.filter (fun u => u.username == username && u.id != id)).length)

/-- Effect of the assembled `UPDATE users SET ... WHERE id = ?` statement on
one matching row. -/
def userApplyPatch (hashFn : String → String) (p : UserPatch) (now : Nat)
    (u : UserRow) : UserRow :=
  { u with
    username := if jsTruthy p.username then p.username.getD u.username else u.username
    password := if jsTruthy p.password then hashFn (p.password.getD "") else u.password
    role := p.role.getD u.role
    updated_at := now }

/-- Observable effect of `UserService.update`: result, table contents
afterwards, and whether an `UPDATE` statement was issued. -/
structure UserUpdateEffect where
  result : Except ResourceError UserPublic
  db : List UserRow
  updateIssued : Bool
deriving Repr

/-- `UserService.update(id, updateUserDto)`: existence check, username
uniqueness check when a truthy username is supplied, early
`return this.findById(id)` when no field is defined, otherwise the `UPDATE`
(password hashed, `updated_at = NOW()`) followed by a re-fetch. -/
def userUpdate (hashFn : String → String) (db : List UserRow) (id : Nat)
    (p : UserPatch) (now : Nat) : UserUpdateEffect :=
  match userFindById db id with
  | none =>
    { result := .error (.notFound ("User with ID " ++ toString id ++ " not found")),
      db := db, updateIssued := false }
  | some _ =>
    if jsTruthy p.username && usernameTakenByOther db (p.username.getD "") id then
      { result := .error (.conflict "Username already exists"),
        db := db, updateIssued := false }
    else if p.isEmpty then
      match userFindById db id with
      | some u => { result := .ok u, db := db, updateIssued := false }
      | none =>
        { result := .error (.notFound ("User with ID " ++ toString id ++ " not found")),
          db := db, updateIssued := false }
    else
      let db2 := db.map (fun u => if u.id == id then userApplyPatch hashFn p now u else u)
      match userFindById db2 id with
      | some u => { result := .ok u, db := db2, updateIssued := true }
      | none =>
        { result := .error (.notFound ("User with ID " ++ toString id ++ " not found")),
          db := db2, updateIssued := true }

/-- Result of `UserService.delete`. -/
inductive UserDeleteResult where
  | conflict (message : String)
  | notFound (message : String)
  | deleted
deriving DecidableEq, Repr

/-- Observable effect of `UserService.delete`: result, table contents
afterwards, and whether a `DELETE` statement was issued. -/
structure UserDeleteEffect where
  result : UserDeleteResult
  db : List UserRow
  deleteIssued : Bool
deriving DecidableEq, Repr

/-- `UserService.delete(id, currentUserId)`: the self-deletion guard throws
`ConflictException('Cannot delete your own account')` before any database
access; then the existence check, then
`DELETE FROM users WHERE id = ?` with the `affectedRows === 0` re-check.
The acting identity enters only through `currentUserId`; the role of the
actor is not consulted. -/
def userDelete (db : List UserRow) (id currentUserId : Nat) : UserDeleteEffect :=
  if id == currentUserId then
    { result := .conflict "Cannot delete your own account", db := db, deleteIssued := false }
  else
    match db.find? (fun u => u.id == id) with
    | none =>
      { result := .notFound ("User with ID " ++ toString id ++ " not found"),
        db := db, deleteIssued := false }
    | some _ =>
      let affected := (db.filter (fun u => u.id == id)).length
      let db2 := db.filter (fun u => u.id != id)
      if affected == 0 then
        { result := .notFound ("User with ID " ++ toString id ++ " not found"),
          db := db2, deleteIssued := true }
      else
        { result := .deleted, db := db2, deleteIssued := true }

/-! ## Helper lemmas -/

/-- A filtered list has positive length exactly when some element satisfies
the predicate. -/
theorem filter_length_pos_iff {α : Type} (p : α → Bool) (l : List α) :
    0 < (l.filter p).length ↔ ∃ a ∈ l, p a = true := by
  induction l with
  | nil => simp
  | cons a rest ih =>
    by_cases h : p a = true
    · simp [List.filter_cons, h]
    · simp [List.filter_cons, h, ih]

/-- The ledger lookup succeeds exactly when the filename is recorded. -/
theorem ledgerHas_iff (l : List String) (f : String) :
    ledgerHas l f = true ↔ f ∈ l := by
  unfold ledgerHas
  rw [decide_eq_true_eq, filter_length_pos_iff]
  constructor
  · rintro ⟨a, ha, hb⟩
    exact (eq_of_beq hb) ▸ ha
  · intro hf
    exact ⟨f, hf, beq_self_eq_true f⟩

/-- The admin existence probe succeeds exactly when an admin row exists. -/
theorem adminExists_iff (db : List UserRow) :
    adminExists db = true ↔ ∃ u ∈ db, u.role = Role.admin := by
  unfold adminExists
  rw [decide_eq_true_eq, List.length_take, Nat.lt_min]
  simp only [Nat.zero_lt_one, true_and]
  rw [filter_length_pos_iff]
  constructor
  · rintro ⟨u, hu, hb⟩
    exact ⟨u, hu, by simpa using hb⟩
  · rintro ⟨u, hu, hr⟩
    exact ⟨u, hu, by simp [hr]⟩

/-! ## Claims about the Auth Service -/

/-- C1.  Whenever no row of the users table both matches the requested
username and verifies the supplied password — covering both the
user-not-found case (no matching row at all) and the wrong-password case —
`login` throws the same `UnauthorizedException` with the identical message
`Invalid credentials`, so the two failure cases are indistinguishable to the
caller. -/
theorem login_enumeration_resistant (bcmp : String → String → Bool)
    (db : List UserRow) (username password : String)
    (h : ∀ u ∈ db, u.username = username → bcmp password u.password = false) :
    loginDb bcmp db username password = .unauthorized "Invalid credentials" := by
  unfold loginDb login validateUser
  cases hq : selectUserByUsername db username with
  | nil => simp
  | cons u rest =>
    have hu : u ∈ selectUserByUsername db username := by
      rw [hq]; exact List.mem_cons_self u rest
    have hmem := List.mem_filter.mp hu
    have hname : u.username = username := by
      have := hmem.2
      simpa using this
    have hfalse : bcmp password u.password = false := h u hmem.1 hname
    simp [hfalse]

/-- C1 witness: a one-row table where the comparison rejects, evaluated
concretely. -/
theorem login_enumeration_resistant_witness :
    loginDb (fun _ _ => false)
      [{ id := 1, username := "admin", password := "HASH", role := Role.admin,
         created_at := 0, updated_at := 0 }] "admin" "wrong"
      = .unauthorized "Invalid credentials" :=
  login_enumeration_resistant (fun _ _ => false) _ "admin" "wrong"
    (by intro u hu hname; rfl)

/-- C2.  When the first row returned for the username verifies the supplied
password, `login` succeeds and returns exactly the token signed over the
payload `(sub = id, username, role)` together with exactly the public user
view `(id, username, role)`; the `User` and `JwtPayload` structures carry no
password field, so the stored hash cannot occur in the returned value. -/
theorem login_success_shape (bcmp : String → String → Bool)
    (db : List UserRow) (username password : String)
    (r : UserRow) (rest : List UserRow)
    (hq : selectUserByUsername db username = r :: rest)
    (hp : bcmp password r.password = true) :
    loginDb bcmp db username password =
      .ok { payload := { sub := r.id, username := r.username, role := r.role } }
        { id := r.id, username := r.username, role := r.role } := by
  unfold loginDb login validateUser
  rw [hq]
  simp [hp]

/-- C2 witness: a concrete one-row table whose hash verifies. -/
theorem login_success_shape_witness :
    loginDb (fun p h => p == "Admin@123" && h == "HASH")
      [{ id := 1, username := "admin", password := "HASH", role := Role.admin,
         created_at := 0, updated_at := 0 }] "admin" "Admin@123"
      = .ok { payload := { sub := 1, username := "admin", role := Role.admin } }
          { id := 1, username := "admin", role := Role.admin } :=
  login_success_shape (fun p h => p == "Admin@123" && h == "HASH")
    [{ id := 1, username := "admin", password := "HASH", role := Role.admin,
       created_at := 0, updated_at := 0 }] "admin" "Admin@123"
    { id := 1, username := "admin", password := "HASH", role := Role.admin,
      created_at := 0, updated_at := 0 } [] rfl rfl

/-! ## Claims about the Migration Runner and the Admin Seeder -/

/-- A successful `runMigration` records the script and keeps every ledger
entry already present. -/
theorem runMigration_ledger (fails : String → Bool) (sc : String × String)
    (s s2 : MigState) (h : runMigration fails sc s = .ok s2) :
    sc.1 ∈ s2.ledger ∧ ∀ x ∈ s.ledger, x ∈ s2.ledger := by
  unfold runMigration at h
  by_cases hl : ledgerHas s.ledger sc.1
  · rw [if_pos hl] at h
    cases h
    exact ⟨(ledgerHas_iff _ _).mp hl, fun x hx => hx⟩
  · rw [if_neg hl] at h
    cases he : execStatements fails (splitStatements sc.2) s.executed with
    | error e => rw [he] at h; cases h
    | ok log2 =>
      rw [he] at h
      cases h
      refine ⟨?_, ?_⟩
      · simp
      · intro x hx
        simp [hx]

/-- A successful `runMigrationsList` keeps every ledger entry already
present. -/
theorem runMigrationsList_ledger_mono (fails : String → Bool)
    (scripts : List (String × String)) :
    ∀ s s2 : MigState, runMigrationsList fails scripts s = .ok s2 →
      ∀ x ∈ s.ledger, x ∈ s2.ledger := by
  induction scripts with
  | nil =>
    intro s s2 h x hx
    cases h
    exact hx
  | cons sc rest ih =>
    intro s s2 h x hx
    unfold runMigrationsList at h
    cases hm : runMigration fails sc s with
    | error e => rw [hm] at h; cases h
    | ok smid =>
      rw [hm] at h
      exact ih smid s2 h x ((runMigration_ledger fails sc s smid hm).2 x hx)

/-- After a successful `runMigrationsList`, every processed script filename
is recorded in the ledger. -/
theorem runMigrationsList_records (fails : String → Bool)
    (scripts : List (String × String)) :
    ∀ s s2 : MigState, runMigrationsList fails scripts s = .ok s2 →
      ∀ sc ∈ scripts, sc.1 ∈ s2.ledger := by
  induction scripts with
  | nil =>
    intro s s2 _ sc hsc
    cases hsc
  | cons sc0 rest ih =>
    intro s s2 h sc hsc
    unfold runMigrationsList at h
    cases hm : runMigration fails sc0 s with
    | error e => rw [hm] at h; cases h
    | ok smid =>
      rw [hm] at h
      cases hsc with
      | head =>
        exact runMigrationsList_ledger_mono fails rest smid s2 h sc0.1
          (runMigration_ledger fails sc0 s smid hm).1
      | tail _ htail => exact ih smid s2 h sc htail

/-- When every script filename is already in the ledger, the runner skips
all scripts: no error, no state change. -/
theorem runMigrationsList_skip_all (fails : String → Bool)
    (scripts : List (String × String)) (s : MigState)
    (h : ∀ sc ∈ scripts, sc.1 ∈ s.ledger) :
    runMigrationsList fails scripts s = .ok s := by
  induction scripts with
  | nil => rfl
  | cons sc rest ih =>
    have hmem : sc.1 ∈ s.ledger := h sc (List.mem_cons_self sc rest)
    have hl : ledgerHas s.ledger sc.1 = true := (ledgerHas_iff _ _).mpr hmem
    unfold runMigrationsList runMigration
    rw [if_pos hl]
    exact ih (fun x hx => h x (List.mem_cons_of_mem sc hx))

/-- C3.  The Migration Runner is idempotent: if a run completes successfully
with state `s2` (ledger plus executed-statement log), running it again
starting from `s2` succeeds, executes no migration statement and inserts no
ledger row — the second run returns exactly the state it started from. -/
theorem runMigrations_idempotent (fails : String → Bool)
    (scripts : List (String × String)) (s s2 : MigState)
    (h : runMigrations fails scripts s = .ok s2) :
    runMigrations fails scripts s2 = .ok s2 := by
  unfold runMigrations at h ⊢
  exact runMigrationsList_skip_all fails (sortScripts scripts) s2
    (runMigrationsList_records fails (sortScripts scripts) s s2 h)

/-- C3 witness: two concrete scripts run from an empty database, evaluated
concretely; the rerun returns the reached state unchanged. -/
theorem runMigrations_idempotent_witness :
    runMigrations (fun _ => false)
      [("001-create-users.sql", "CREATE TABLE users (id INT); CREATE INDEX idx_users ON users(id)"),
       ("002-create-customers.sql", "CREATE TABLE customers (id INT)")]
      { ledger := ["001-create-users.sql", "002-create-customers.sql"],
        executed := ["CREATE TABLE users (id INT)",
                     "CREATE INDEX idx_users ON users(id)",
                     "CREATE TABLE customers (id INT)"] }
      = .ok { ledger := ["001-create-users.sql", "002-create-customers.sql"],
              executed := ["CREATE TABLE users (id INT)",
                           "CREATE INDEX idx_users ON users(id)",
                           "CREATE TABLE customers (id INT)"] } :=
  runMigrations_idempotent (fun _ => false)
    [("001-create-users.sql", "CREATE TABLE users (id INT); CREATE INDEX idx_users ON users(id)"),
     ("002-create-customers.sql", "CREATE TABLE customers (id INT)")]
    { ledger := [], executed := [] }
    { ledger := ["001-create-users.sql", "002-create-customers.sql"],
      executed := ["CREATE TABLE users (id INT)",
                   "CREATE INDEX idx_users ON users(id)",
                   "CREATE TABLE customers (id INT)"] }
    (by decide)

/-- C4.  The Admin Seeder is idempotent and establishes the admin
invariant: a second call right after the first is a no-op; after any call at
least one admin row exists; a database already holding an admin row is left
untouched; an admin-free database receives exactly one new row, the default
admin `(username 'admin', hash of 'Admin@123', role admin)`. -/
theorem seedDefaultAdmin_idempotent (hashFn : String → String)
    (db : List UserRow) (nextId now now2 : Nat) :
    (seedDefaultAdmin hashFn (seedDefaultAdmin hashFn db nextId now).1
        (seedDefaultAdmin hashFn db nextId now).2 now2
      = seedDefaultAdmin hashFn db nextId now) ∧
    (∃ u ∈ (seedDefaultAdmin hashFn db nextId now).1, u.role = Role.admin) ∧
    ((∃ u ∈ db, u.role = Role.admin) →
      seedDefaultAdmin hashFn db nextId now = (db, nextId)) ∧
    ((∀ u ∈ db, u.role ≠ Role.admin) →
      (seedDefaultAdmin hashFn db nextId now).1
        = db ++ [defaultAdminRow hashFn nextId now]) := by
  by_cases hA : adminExists db
  · have hEx : ∃ u ∈ db, u.role = Role.admin := (adminExists_iff db).mp hA
    have hseed : seedDefaultAdmin hashFn db nextId now = (db, nextId) := by
      unfold seedDefaultAdmin
      rw [if_pos hA]
    refine ⟨?_, ?_, fun _ => hseed, ?_⟩
    · rw [hseed]
      unfold seedDefaultAdmin
      rw [if_pos hA]
    · rw [hseed]
      exact hEx
    · intro hnone
      obtain ⟨u, hu, hr⟩ := hEx
      exact absurd hr (hnone u hu)
  · have hseed : seedDefaultAdmin hashFn db nextId now
        = (db ++ [defaultAdminRow hashFn nextId now], nextId + 1) := by
      unfold seedDefaultAdmin
      rw [if_neg hA]
    have hmem : defaultAdminRow hashFn nextId now
        ∈ db ++ [defaultAdminRow hashFn nextId now] := by
      simp
    have hA2 : adminExists (db ++ [defaultAdminRow hashFn nextId now]) = true :=
      (adminExists_iff _).mpr ⟨defaultAdminRow hashFn nextId now, hmem, rfl⟩
    refine ⟨?_, ?_, ?_, ?_⟩
    · rw [hseed]
      unfold seedDefaultAdmin
      rw [if_pos hA2]
    · rw [hseed]
      exact ⟨defaultAdminRow hashFn nextId now, hmem, rfl⟩
    · intro hEx
      exact absurd ((adminExists_iff db).mpr hEx) hA
    · intro _
      rw [hseed]

/-- C4 witness: seeding an empty users table inserts exactly the default
admin row, evaluated concretely through the main theorem. -/
theorem seedDefaultAdmin_idempotent_witness :
    (seedDefaultAdmin (fun p => "bcrypt-" ++ p) ([] : List UserRow) 1 5).1
      = [defaultAdminRow (fun p => "bcrypt-" ++ p) 1 5] :=
  (seedDefaultAdmin_idempotent (fun p => "bcrypt-" ++ p) [] 1 5 0).2.2.2
    (by intro u hu; cases hu)

/-! ## Claims about startup failure handling and request-time failures -/

/-- C7 counterexample.  A migration script whose single statement the
database rejects: `runMigrations` fails, yet `bootstrap` still reaches
`app.listen` (outcome `listening`, with the database uninitialized) instead
of exiting — the `try/catch` in `main.ts` swallows the migration error and
the server begins accepting requests. -/
theorem bootstrap_survives_migration_failure_counterexample :
    runMigrations (fun _ => true) [("001-create-users.sql", "CREATE TABLE users (id INT)")]
        { ledger := [], executed := [] }
      = .error "Migration statement failed: CREATE TABLE users (id INT)" ∧
    bootstrap (.ok ()) (fun _ => true)
        [("001-create-users.sql", "CREATE TABLE users (id INT)")]
        { ledger := [], executed := [] }
      = .listening false := by
  constructor
  · decide
  · decide

/-- C7 amended.  Once `app.init()` has succeeded, a migration failure does
not abort startup: the error is caught and logged by the `try/catch` in
`bootstrap`, and the server begins accepting requests anyway (with the
database left uninitialized).  Only an error thrown outside that block —
for example a connection-pool creation failure during `app.init()` —
escapes to `bootstrap().catch(...)` and exits the process. -/
theorem bootstrap_listens_despite_migration_failure
    (fails : String → Bool) (scripts : List (String × String)) (s : MigState)
    (e : String) (h : runMigrations fails scripts s = .error e) :
    bootstrap (.ok ()) fails scripts s = .listening false := by
  unfold bootstrap
  rw [h]

/-- C7 amended-claim witness: the failing script of the counterexample,
pushed through the amended theorem. -/
theorem bootstrap_listens_despite_migration_failure_witness :
    bootstrap (.ok ()) (fun _ => true)
        [("001-create-users.sql", "CREATE TABLE users (id INT)")]
        { ledger := [], executed := [] }
      = .listening false :=
  bootstrap_listens_despite_migration_failure (fun _ => true)
    [("001-create-users.sql", "CREATE TABLE users (id INT)")]
    { ledger := [], executed := [] }
    "Migration statement failed: CREATE TABLE users (id INT)" (by decide)

/-- C8 counterexample.  A database failure during login (the user query
rejects with `Connection lost`) does not surface as a generic 5xx: the
`try/catch` in `AuthService.validateUser` maps it to `null`, and `login`
then throws the domain error `UnauthorizedException('Invalid credentials')`
— exactly the 401 the claim rules out. -/
theorem login_db_failure_counterexample :
    login (fun _ _ => true) (.error "Connection lost") "Admin@123"
      = .unauthorized "Invalid credentials" := rfl

/-- C8 amended.  Request-time database failures during login never
propagate: for every comparison function, error message and password,
`validateUser` catches the query error and returns `null`, so `login`
surfaces the infrastructure failure as the domain error 401
`Invalid credentials` rather than as a generic 5xx.  (Resource-service
queries, by contrast, have no such `catch` and propagate to the transport
layer.) -/
theorem login_db_failure_becomes_unauthorized (bcmp : String → String → Bool)
    (e : String) (password : String) :
    validateUser bcmp (.error e) password = none ∧
    login bcmp (.error e) password = .unauthorized "Invalid credentials" :=
  ⟨rfl, rfl⟩

/-! ## Claims about the readiness check -/

/-- C9 counterexample.  With a fully populated configuration but an
unreachable database (`dbReachable = false`), the readiness response still
reports `database: ok` — and the whole response is identical to the one
produced when the database is reachable, because the source hard-codes the
value. -/
theorem readiness_ignores_db_counterexample :
    (getReadinessStatus (fun _ => some "production") false).checks.database = "ok" ∧
    getReadinessStatus (fun _ => some "production") false
      = getReadinessStatus (fun _ => some "production") true :=
  ⟨rfl, rfl⟩

/-- C9 amended.  The readiness result reflects configuration completeness
only: for every configuration and every database reachability, the
`database` check is the hard-coded string `ok`, while the `configuration`
check is `ok` exactly when both required keys (`NODE_ENV`, `JWT_SECRET`)
are present and non-empty. -/
theorem readiness_reflects_configuration_only
    (cfg : String → Option String) (dbReachable : Bool) :
    (getReadinessStatus cfg dbReachable).checks.database = "ok" ∧
    ((getReadinessStatus cfg dbReachable).checks.configuration = "ok" ↔
      jsFalsy (cfg "NODE_ENV") = false ∧ jsFalsy (cfg "JWT_SECRET") = false) := by
  refine ⟨rfl, ?_⟩
  show checkConfiguration cfg = "ok" ↔ _
  unfold checkConfiguration requiredConfig
  by_cases h1 : jsFalsy (cfg "NODE_ENV") <;>
    by_cases h2 : jsFalsy (cfg "JWT_SECRET") <;>
      simp [checkConfigurationLoop, h1, h2]

/-! ## Claims about the resource services -/

/-- C5.  For every table state and every acting identity, a deletion whose
target id equals the acting id fails with
`ConflictException('Cannot delete your own account')`; the users table is
returned unchanged and no `DELETE` statement is issued.  The guard runs
before any database access, and `UserService.delete` never consults the
acting role, so the outcome is independent of it. -/
theorem userDelete_self_is_conflict (db : List UserRow) (actorId : Nat) :
    userDelete db actorId actorId =
      { result := .conflict "Cannot delete your own account",
        db := db, deleteIssued := false } := by
  unfold userDelete
  simp

set_option linter.unusedVariables false in
/-- C6.  For both list operations, the returned metadata satisfies
`totalPages = ⌈total / limit⌉` (Mathlib ceiling division, characterized by
its Galois property `totalPages ≤ k ↔ total ≤ limit * k`), `hasNext` holds
exactly when `page < totalPages`, and `hasPrev` exactly when `page > 1`,
for every page ≥ 1 and limit in `[1, 100]` (the bounds enforced by
`PaginationQueryDto`). -/
theorem pagination_invariant (cdb : List CustomerRow) (udb : List UserRow)
    (page limit : Nat) (hlim1 : 1 ≤ limit) (hlim2 : limit ≤ 100) (hpage : 1 ≤ page) :
    ((customerFindAll cdb page limit).2.totalPages = cdb.length ⌈/⌉ limit ∧
     (∀ k : Nat, (customerFindAll cdb page limit).2.totalPages ≤ k ↔
        cdb.length ≤ limit * k) ∧
     ((customerFindAll cdb page limit).2.hasNext = true ↔
        page < (customerFindAll cdb page limit).2.totalPages) ∧
     ((customerFindAll cdb page limit).2.hasPrev = true ↔ 1 < page)) ∧
    ((userFindAll udb page limit).2.totalPages = udb.length ⌈/⌉ limit ∧
     (∀ k : Nat, (userFindAll udb page limit).2.totalPages ≤ k ↔
        udb.length ≤ limit * k) ∧
     ((userFindAll udb page limit).2.hasNext = true ↔
        page < (userFindAll udb page limit).2.totalPages) ∧
     ((userFindAll udb page limit).2.hasPrev = true ↔ 1 < page)) := by
  have hpos : 0 < limit := hlim1
  have hceil : ∀ total : Nat, jsCeilDiv total limit = total ⌈/⌉ limit := by
    intro total
    rw [Nat.ceilDiv_eq_add_pred_div]
    rfl
  have hgal : ∀ total k : Nat, jsCeilDiv total limit ≤ k ↔ total ≤ limit * k := by
    intro total k
    rw [hceil total]
    simpa [smul_eq_mul] using ceilDiv_le_iff_le_smul (α := ℕ) (β := ℕ) hpos
      (b := total) (c := k)
  constructor
  · refine ⟨hceil cdb.length, fun k => hgal cdb.length k, ?_, ?_⟩ <;>
      simp [customerFindAll, computePagination]
  · refine ⟨hceil udb.length, fun k => hgal udb.length k, ?_, ?_⟩ <;>
      simp [userFindAll, computePagination]

/-- C6 witness: seven customers, page 2, limit 3 — totalPages 3, hasNext
and hasPrev both true — evaluated through the main theorem. -/
theorem pagination_invariant_witness :
    ((customerFindAll (List.replicate 7
        { id := 0, name := "n", email := "e", phone := "p", company := none,
          address := none, created_at := 0, updated_at := 0 }) 2 3).2.hasNext = true ↔
      2 < (customerFindAll (List.replicate 7
        { id := 0, name := "n", email := "e", phone := "p", company := none,
          address := none, created_at := 0, updated_at := 0 }) 2 3).2.totalPages) ∧
    ((userFindAll ([] : List UserRow) 2 3).2.hasPrev = true ↔ 1 < 2) :=
  ⟨((pagination_invariant (List.replicate 7
      { id := 0, name := "n", email := "e", phone := "p", company := none,
        address := none, created_at := 0, updated_at := 0 }) [] 2 3
      (by decide) (by decide) (by decide)).1).2.2.1,
   ((pagination_invariant (List.replicate 7
      { id := 0, name := "n", email := "e", phone := "p", company := none,
        address := none, created_at := 0, updated_at := 0 }) [] 2 3
      (by decide) (by decide) (by decide)).2).2.2.2⟩

/-- C10.  An update whose patch defines no field issues no `UPDATE`
statement and returns the currently stored record, leaving the table —
including every `updated_at` value — unchanged; this holds for both the
customer service (fields tested with `!== undefined`) and the user service
(fields tested with truthiness). -/
theorem update_empty_patch_is_noop
    (cdb : List CustomerRow) (cid : Nat) (c : CustomerRow) (cnow : Nat)
    (hc : customerFindById cdb cid = some c)
    (hashFn : String → String) (udb : List UserRow) (uid : Nat) (u : UserRow)
    (unow : Nat) (hu : udb.find? (fun x => x.id == uid) = some u) :
    customerUpdate cdb cid
        { name := none, email := none, phone := none, company := none, address := none }
        cnow
      = { result := .ok c, db := cdb, updateIssued := false } ∧
    userUpdate hashFn udb uid { username := none, password := none, role := none } unow
      = { result := .ok (userPublic u), db := udb, updateIssued := false } := by
  constructor
  · unfold customerUpdate
    rw [hc]
    simp [CustomerPatch.isEmpty, hc]
  · unfold userUpdate
    rw [userFindById, hu]
    simp [UserPatch.isEmpty, jsTruthy, userFindById, hu]

/-- C10 witness: concrete one-row tables, empty patches, evaluated through
the main theorem. -/
theorem update_empty_patch_is_noop_witness :
    customerUpdate
        [{ id := 3, name := "John Doe", email := "john@x.com", phone := "555-0100",
           company := none, address := none, created_at := 10, updated_at := 10 }] 3
        { name := none, email := none, phone := none, company := none, address := none }
        99
      = { result := .ok
            { id := 3, name := "John Doe", email := "john@x.com", phone := "555-0100",
              company := none, address := none, created_at := 10, updated_at := 10 },
          db := [{ id := 3, name := "John Doe", email := "john@x.com", phone := "555-0100",
                   company := none, address := none, created_at := 10, updated_at := 10 }],
          updateIssued := false } ∧
    userUpdate (fun p => "bcrypt-" ++ p)
        [{ id := 2, username := "viewer1", password := "H", role := Role.viewer,
           created_at := 4, updated_at := 4 }] 2
        { username := none, password := none, role := none } 99
      = { result := .ok (userPublic
            { id := 2, username := "viewer1", password := "H", role := Role.viewer,
              created_at := 4, updated_at := 4 }),
          db := [{ id := 2, username := "viewer1", password := "H", role := Role.viewer,
                   created_at := 4, updated_at := 4 }],
          updateIssued := false } :=
  update_empty_patch_is_noop
    [{ id := 3, name := "John Doe", email := "john@x.com", phone := "555-0100",
       company := none, address := none, created_at := 10, updated_at := 10 }] 3
    { id := 3, name := "John Doe", email := "john@x.com", phone := "555-0100",
      company := none, address := none, created_at := 10, updated_at := 10 } 99 rfl
    (fun p => "bcrypt-" ++ p)
    [{ id := 2, username := "viewer1", password := "H", role := Role.viewer,
       created_at := 4, updated_at := 4 }] 2
    { id := 2, username := "viewer1", password := "H", role := Role.viewer,
      created_at := 4, updated_at := 4 } 99 rfl

end Crm
